import Mathlib

/-!
Shallow embedding of `src/ServiceApp/server/src/services/zmqService.ts`
(class `ZmqService`): a lazily-connected publish/subscribe relay that
maps logical event names to ordered lists of subscriber callbacks,
opens a single upstream socket on first subscription, closes it when
the registry empties, and routes raw space-separated messages to the
first subscriber registered for event "tx".

Modelling conventions:
- JavaScript string-keyed objects (`this._subscriptions`) become
  association lists in key-insertion order (event names such as "tx"
  are non-numeric, so JS enumerates keys in insertion order).
- Callbacks are opaque: a callback is identified by a natural number
  token; an `Invocation` records which callback was invoked, with
  which event string and payload.
- `uuid()` is modelled by a fresh-id counter `nextId` in the state
  (the only property used anywhere is freshness of generated ids).
- The zeromq socket is modelled by its observable state: the list of
  topic filters applied via `socket.subscribe` / `socket.unsubscribe`.
  `zmq.socket('sub')` + `socket.connect(endpoint)` may throw; the
  oracle `openErr : Option String` says whether the open succeeds
  (`none`) or throws with a given underlying message (`some err`).
- The tag decoder `extractMessageType` (from `../utils/eclassHelper`)
  and the payload extractor `getPayload` (from `../utils/iotaHelper`)
  are NOT part of src/; per the spec (§4.1, §4.2) the decoder is a
  pure total function `String → Option MessageType` ("no failure
  beyond no-match") and the extractor a black-box `String → Payload`.
  Both are abstract parameters of the router.
- Exceptions become `Except String`: `.error` is a thrown JS error
  (its message approximates the JS one).
- String library functions defined by well-founded recursion do not
  kernel-reduce, so splitting on spaces, prefix test and parseInt are
  given as structurally recursive definitions over `List Char` with
  the exact semantics of `String.prototype.split(' ')`,
  `String.prototype.startsWith` and `parseInt(s, 10)`.
-/

/-- A decoded message classification, the result of the external
`extractMessageType`; kept abstract as a string. -/
abbrev MessageType := String

/-- The decoded application payload returned by the external
`getPayload`; kept abstract as a string. -/
abbrev PayloadData := String

/-- One entry of an event's subscriber list: `{ id, callback }` as pushed by
`internalAddEventCallback`. The callback is an opaque token. -/
structure Subscription where
  id : Nat
  callback : Nat
  deriving Repr, DecidableEq

/-- The registry `this._subscriptions`: event name to ordered subscriber
list, keys in insertion order. -/
abbrev Registry := List (String × List Subscription)

/-- Observable state of the zeromq SUB socket: the topic filters that have
been applied with `socket.subscribe` and not removed. -/
structure Socket where
  filters : List String
  deriving Repr, DecidableEq

/-- The service configuration: `{ endpoint, prefix }`. The source field
`prefix` is renamed `prefixStr` (Lean reserves the word). -/
structure ZmqConfig where
  endpoint : String
  prefixStr : String
  deriving Repr, DecidableEq

/-- The mutable state of a `ZmqService` instance: `_config`,
`_socket` (undefined = `none`), `_subscriptions`, plus the fresh-id
counter modelling `uuid()`. -/
structure ZmqState where
  config : ZmqConfig
  socket : Option Socket
  subscriptions : Registry
  nextId : Nat
  deriving Repr, DecidableEq

/-- The payload built by `buildPayload`. `timestamp` models the JS number
`parseInt(messageParams[5], 10)`: `none` is NaN. -/
structure Payload where
  data : PayloadData
  messageType : MessageType
  tag : String
  hash : String
  address : String
  timestamp : Option Int
  deriving Repr, DecidableEq

/-- A record of one callback invocation `callback(event, payload)`. -/
structure Invocation where
  callback : Nat
  event : String
  payload : Payload
  deriving Repr, DecidableEq

/-- Splitting accumulator: current (reversed) field, remaining characters. -/
def splitGo (cur : List Char) : List Char → List (List Char)
  | [] => [cur.reverse]
  | c :: cs => if c = ' ' then cur.reverse :: splitGo [] cs else splitGo (c :: cur) cs

/-- JS `message.toString().split(' ')`: split on every single space
character (empty fields preserved, `""` yields `[""]`). -/
def splitOnSpace (s : String) : List String :=
  (splitGo [] s.data).map (fun l => String.mk l)

/-- Char-list prefix test. -/
def isPrefixList : List Char → List Char → Bool
  | [], _ => true
  | _ :: _, [] => false
  | p :: ps, c :: cs => p = c && isPrefixList ps cs

/-- JS `s.startsWith(p)`. -/
def strStartsWith (s p : String) : Bool :=
  isPrefixList p.data s.data

/-- Longest prefix of decimal digits. -/
def digitsPrefix : List Char → List Char
  | [] => []
  | c :: cs => if c.isDigit then c :: digitsPrefix cs else []

/-- Numeric value of a digit list read left to right. -/
def digitsVal (ds : List Char) : Nat :=
  ds.foldl (fun acc c => acc * 10 + (c.toNat - '0'.toNat)) 0

/-- JS `parseInt(s, 10)`: skip leading whitespace, optional sign, then the
longest run of decimal digits; `none` models NaN (no digit found). -/
def parseIntB10 (s : String) : Option Int :=
  let cs := s.data.dropWhile (fun c => c = ' ' || c = '\t' || c = '\n' || c = '\r')
  let signAndRest : Int × List Char :=
    match cs with
    | '-' :: rest => (-1, rest)
    | '+' :: rest => (1, rest)
    | _ => (1, cs)
  let ds := digitsPrefix signAndRest.2
  if ds.isEmpty then none
  else some (signAndRest.1 * (digitsVal ds : Int))

/-- Registry lookup `this._subscriptions[event]` (`none` = key absent;
note a present key with an empty list is truthy in JS, hence key
presence, not list non-emptiness, is what the guards test). -/
def lookupEvent (event : String) : Registry → Option (List Subscription)
  | [] => none
  | (k, l) :: rest => if k = event then some l else lookupEvent event rest

/-- Rewrite the list stored under the first occurrence of a key. -/
def updateEvent (event : String) (f : List Subscription → List Subscription) :
    Registry → Registry
  | [] => []
  | (k, l) :: rest =>
    if k = event then (k, f l) :: rest else (k, l) :: updateEvent event f rest

/-- JS `delete this._subscriptions[eventKey]`. -/
def deleteEvent (event : String) : Registry → Registry
  | [] => []
  | (k, l) :: rest =>
    if k = event then rest else (k, l) :: deleteEvent event rest

/-- Does the list contain an entry with this id
(`this._subscriptions[eventKey][j].id === subscriptionId`)? -/
def listHasId (subscriptionId : Nat) (l : List Subscription) : Bool :=
  l.any (fun sub => sub.id = subscriptionId)

/-- The first event key (in key order) whose subscriber list contains the
id: the key at which the double loop of `unsubscribe` stops. -/
def findOwner (subscriptionId : Nat) : Registry → Option String
  | [] => none
  | (k, l) :: rest =>
    if listHasId subscriptionId l then some k else findOwner subscriptionId rest

/-- `splice(j, 1)` at the first index whose id matches. -/
def removeFirstById (subscriptionId : Nat) : List Subscription → List Subscription
  | [] => []
  | sub :: rest =>
    if sub.id = subscriptionId then rest else sub :: removeFirstById subscriptionId rest

namespace ZmqService

/-- `connect()`: if no socket exists, open one (attaching the message
handler) and apply a filter for every registered event key; failure of the
open throws `Unable to connect to ZMQ.` wrapping the underlying error.
An existing socket makes the call a no-op. The failure oracle models
`zmq.socket('sub')` itself throwing, so the socket stays undefined. -/
def connect (openErr : Option String) (s : ZmqState) : Except String ZmqState :=
  match s.socket with
  | some _ => .ok s
  | none =>
    match openErr with
    | none => .ok { s with socket := some { filters := s.subscriptions.map (fun p => p.1) } }
    | some err => .error ("Unable to connect to ZMQ.\n" ++ err)

/-- `disconnect()`: close and release the socket handle if one exists. -/
def disconnect (s : ZmqState) : ZmqState :=
  { s with socket := none }

/-- `internalAddEventCallback(event, callback)`: create the event's list if
fresh (applying the socket filter when connected), push `{ id, callback }`
with a fresh id, then `connect()`. On connect failure the error propagates
while the registry mutations (and the fresh id) remain in place. -/
def internalAddEventCallback (event : String) (callback : Nat) (openErr : Option String)
    (s : ZmqState) : Except String Nat × ZmqState :=
  let fresh := (lookupEvent event s.subscriptions).isNone
  let subs0 := if fresh then s.subscriptions ++ [(event, [])] else s.subscriptions
  let sock0 :=
    if fresh then
      match s.socket with
      | some so => some { filters := so.filters ++ [event] }
      | none => none
    else s.socket
  let id := s.nextId
  let subs1 := updateEvent event (fun l => l ++ [{ id := id, callback := callback }]) subs0
  let s1 : ZmqState :=
    { config := s.config, socket := sock0, subscriptions := subs1, nextId := s.nextId + 1 }
  match connect openErr s1 with
  | .ok s2 => (.ok id, s2)
  | .error e => (.error e, s1)

/-- `subscribe(event, callback)`. -/
def subscribe (event : String) (callback : Nat) (openErr : Option String)
    (s : ZmqState) : Except String Nat × ZmqState :=
  internalAddEventCallback event callback openErr s

/-- `subscribeEvent(event, callback)` (alias of `subscribe`). -/
def subscribeEvent (event : String) (callback : Nat) (openErr : Option String)
    (s : ZmqState) : Except String Nat × ZmqState :=
  internalAddEventCallback event callback openErr s

/-- `unsubscribe(subscriptionId)`: the double loop scans keys in order and
each list in order; on the first id match it splices the entry out, and if
the list became empty drops the socket filter (a `TypeError` if the socket
is undefined), deletes the key, and disconnects when the registry became
empty; without a match it silently returns. -/
def unsubscribe (subscriptionId : Nat) (s : ZmqState) : Except String ZmqState :=
  match findOwner subscriptionId s.subscriptions with
  | none => .ok s
  | some eventKey =>
    let oldList := (lookupEvent eventKey s.subscriptions).getD []
    let newList := removeFirstById subscriptionId oldList
    if newList.isEmpty then
      match s.socket with
      | none => .error "TypeError: Cannot read property 'unsubscribe' of undefined"
      | some so =>
        let subs2 := deleteEvent eventKey s.subscriptions
        if subs2.isEmpty then
          .ok (disconnect { s with subscriptions := subs2 })
        else
          .ok { s with
                subscriptions := subs2,
                socket := some { filters := so.filters.filter (fun f => f ≠ eventKey) } }
    else
      .ok { s with subscriptions := updateEvent eventKey (fun _ => newList) s.subscriptions }

/-- `buildPayload(data, messageType, messageParams)`. On every path that
reaches it, `messageParams` has at least 13 fields (index 12 was accessed
first), so the `getD ""` defaults are never taken. -/
def buildPayload (data : PayloadData) (messageType : MessageType)
    (messageParams : List String) : Payload :=
  { data := data
    messageType := messageType
    tag := messageParams[12]?.getD ""
    hash := messageParams[1]?.getD ""
    address := messageParams[2]?.getD ""
    timestamp := parseIntB10 (messageParams[5]?.getD "") }

/-- `sendEvent(data, messageType, messageParams)`: build the payload and
invoke `this._subscriptions[event][0].callback(event, payload)` — the head
of the event's subscriber list; indexing an absent or empty list throws. -/
def sendEvent (subs : Registry) (data : PayloadData) (messageType : MessageType)
    (messageParams : List String) : Except String Invocation :=
  let event := messageParams[0]?.getD ""
  let payload := buildPayload data messageType messageParams
  match lookupEvent event subs with
  | some (sub :: _) => .ok { callback := sub.callback, event := event, payload := payload }
  | _ => .error "TypeError: Cannot read property 'callback' of undefined"

/-- `handleMessage(message)`: split on spaces, read `event = params[0]` and
`tag = params[12]`; proceed only when `event === 'tx'` and the registry has
the key; then classify the tag (`extractMessageType`, abstract `ext`) and
require `tag.startsWith(prefix) && messageType`; on success resolve the
payload of `bundle = params[8]` (`getPayload`, abstract `gp`) and dispatch
via `sendEvent`. The returned list records the callback invocations the
call performed (a thrown error performs none). When fewer than 13 fields
arrive on the `tx` path, `tag` is `undefined` and `tag.startsWith` throws
a `TypeError`. -/
def handleMessage (ext : String → Option MessageType) (gp : String → PayloadData)
    (cfg : ZmqConfig) (subs : Registry) (message : String) :
    Except String (List Invocation) :=
  let messageParams := splitOnSpace message
  let event := messageParams[0]?.getD ""
  if event = "tx" ∧ (lookupEvent event subs).isSome = true then
    match messageParams[12]? with
    | none => .error "TypeError: Cannot read property 'startsWith' of undefined"
    | some tag =>
      match ext tag with
      | none => .ok []
      | some messageType =>
        if strStartsWith tag cfg.prefixStr then
          let bundle := messageParams[8]?.getD ""
          (sendEvent subs (gp bundle) messageType messageParams).map (fun inv => [inv])
        else .ok []
  else .ok []

end ZmqService

/-! ### Registry lemmas -/

theorem lookupEvent_append_of_none {e : String} {l l' : Registry}
    (h : lookupEvent e l = none) : lookupEvent e (l ++ l') = lookupEvent e l' := by
  induction l with
  | nil => rfl
  | cons p rest ih =>
    obtain ⟨k, v⟩ := p
    by_cases hk : k = e
    · simp [lookupEvent, hk] at h
    · simp [lookupEvent, hk] at h ⊢
      exact ih h

theorem lookupEvent_singleton_self (e : String) (v : List Subscription) :
    lookupEvent e [(e, v)] = some v := by
  simp [lookupEvent]

theorem updateEvent_append_of_none {e : String} {l : Registry}
    (f : List Subscription → List Subscription) (v : List Subscription)
    (h : lookupEvent e l = none) :
    updateEvent e f (l ++ [(e, v)]) = l ++ [(e, f v)] := by
  induction l with
  | nil => simp [updateEvent]
  | cons p rest ih =>
    obtain ⟨k, w⟩ := p
    by_cases hk : k = e
    · simp [lookupEvent, hk] at h
    · simp [lookupEvent, hk] at h
      simp [updateEvent, hk, ih h]

theorem updateEvent_length (e : String) (f : List Subscription → List Subscription)
    (l : Registry) : (updateEvent e f l).length = l.length := by
  induction l with
  | nil => rfl
  | cons p rest ih =>
    obtain ⟨k, w⟩ := p
    by_cases hk : k = e
    · simp [updateEvent, hk]
    · simp [updateEvent, hk, ih]

theorem updateEvent_ne_nil {e : String} {f : List Subscription → List Subscription}
    {l : Registry} (h : l ≠ []) : updateEvent e f l ≠ [] := by
  intro hcon
  apply h
  have := updateEvent_length e f l
  rw [hcon] at this
  exact List.length_eq_zero.mp this.symm

theorem lookupEvent_isSome_ne_nil {e : String} {l : Registry}
    (h : (lookupEvent e l).isSome = true) : l ≠ [] := by
  intro hcon
  rw [hcon] at h
  simp [lookupEvent] at h

theorem findOwner_some_ne_nil {i : Nat} {l : Registry} {k : String}
    (h : findOwner i l = some k) : l ≠ [] := by
  intro hcon
  rw [hcon] at h
  simp [findOwner] at h

theorem findOwner_none_of_absent {i : Nat} {l : Registry}
    (h : ∀ p ∈ l, ∀ sub ∈ p.2, sub.id ≠ i) : findOwner i l = none := by
  induction l with
  | nil => rfl
  | cons p rest ih =>
    obtain ⟨k, v⟩ := p
    have hv : listHasId i v = false := by
      simp only [listHasId, List.any_eq_false]
      intro sub hsub
      simpa using h (k, v) (by simp) sub hsub
    simp only [findOwner, hv]
    simp only [Bool.false_eq_true, if_false]
    exact ih (fun q hq => h q (by simp [hq]))

theorem findOwner_append_of_absent {i : Nat} {l l' : Registry}
    (h : ∀ p ∈ l, ∀ sub ∈ p.2, sub.id ≠ i) :
    findOwner i (l ++ l') = findOwner i l' := by
  induction l with
  | nil => rfl
  | cons p rest ih =>
    obtain ⟨k, v⟩ := p
    have hv : listHasId i v = false := by
      simp only [listHasId, List.any_eq_false]
      intro sub hsub
      simpa using h (k, v) (by simp) sub hsub
    simp only [List.cons_append, findOwner, hv]
    simp only [Bool.false_eq_true, if_false]
    exact ih (fun q hq => h q (by simp [hq]))

theorem deleteEvent_append_of_none {e : String} {l : Registry} (v : List Subscription)
    (h : lookupEvent e l = none) :
    deleteEvent e (l ++ [(e, v)]) = l := by
  induction l with
  | nil => simp [deleteEvent]
  | cons p rest ih =>
    obtain ⟨k, w⟩ := p
    by_cases hk : k = e
    · simp [lookupEvent, hk] at h
    · simp [lookupEvent, hk] at h
      simp [deleteEvent, hk, ih h]

theorem lookupEvent_eq_none_of_not_mem {e : String} {l : Registry}
    (h : e ∉ l.map Prod.fst) : lookupEvent e l = none := by
  induction l with
  | nil => rfl
  | cons p rest ih =>
    obtain ⟨k, v⟩ := p
    simp only [List.map_cons, List.mem_cons] at h
    push_neg at h
    have hne : ¬ (k = e) := fun hk => h.1 hk.symm
    simp only [lookupEvent, if_neg hne]
    exact ih h.2

theorem lookupEvent_deleteEvent_of_nodup {e : String} {l : Registry}
    (h : (l.map Prod.fst).Nodup) :
    lookupEvent e (deleteEvent e l) = none := by
  induction l with
  | nil => rfl
  | cons p rest ih =>
    obtain ⟨k, v⟩ := p
    simp only [List.map_cons, List.nodup_cons] at h
    by_cases hk : k = e
    · subst hk
      simp only [deleteEvent, if_pos rfl]
      exact lookupEvent_eq_none_of_not_mem h.1
    · simp only [deleteEvent, if_neg hk, lookupEvent, if_neg hk]
      exact ih h.2

theorem lookupEvent_updateEvent_self (e : String) (f : List Subscription → List Subscription)
    (l : Registry) :
    lookupEvent e (updateEvent e f l) = (lookupEvent e l).map f := by
  induction l with
  | nil => rfl
  | cons p rest ih =>
    obtain ⟨k, v⟩ := p
    by_cases hk : k = e
    · simp [updateEvent, lookupEvent, hk]
    · simp [updateEvent, lookupEvent, hk, ih]

/-! ### Connection manager lemmas -/

theorem connect_of_isSome {s : ZmqState} (openErr : Option String)
    (h : s.socket.isSome = true) :
    ZmqService.connect openErr s = .ok s := by
  obtain ⟨so, hso⟩ := Option.isSome_iff_exists.mp h
  simp [ZmqService.connect, hso]

theorem connect_none_spec (s : ZmqState) :
    ∃ s2, ZmqService.connect none s = .ok s2 ∧
      s2.subscriptions = s.subscriptions ∧ s2.socket.isSome = true ∧
      s2.nextId = s.nextId ∧ s2.config = s.config := by
  cases hso : s.socket with
  | some so =>
    refine ⟨s, ?_, rfl, ?_, rfl, rfl⟩
    · simp [ZmqService.connect, hso]
    · simp [hso]
  | none =>
    refine ⟨{ s with socket := some { filters := s.subscriptions.map (fun p => p.1) } },
      ?_, rfl, rfl, rfl, rfl⟩
    simp [ZmqService.connect, hso]

theorem connect_err_of_none {s : ZmqState} (err : String) (h : s.socket = none) :
    ZmqService.connect (some err) s = .error ("Unable to connect to ZMQ.\n" ++ err) := by
  simp [ZmqService.connect, h]

/-! ### Subscribe lemmas -/

theorem internalAdd_fresh_none {e : String} {s : ZmqState} (cb : Nat)
    (hl : lookupEvent e s.subscriptions = none) :
    ∃ s2, ZmqService.internalAddEventCallback e cb none s = (.ok s.nextId, s2) ∧
      s2.subscriptions =
        s.subscriptions ++ [(e, [{ id := s.nextId, callback := cb }])] ∧
      s2.socket.isSome = true ∧ s2.nextId = s.nextId + 1 ∧ s2.config = s.config := by
  have hfresh : (lookupEvent e s.subscriptions).isNone = true := by simp [hl]
  have hupd :
      updateEvent e (fun l => l ++ [{ id := s.nextId, callback := cb }])
        (s.subscriptions ++ [(e, [])]) =
      s.subscriptions ++ [(e, [{ id := s.nextId, callback := cb }])] := by
    simpa using updateEvent_append_of_none _ [] hl
  simp only [ZmqService.internalAddEventCallback, hfresh, if_true]
  obtain ⟨s2, hc, hsubs, hsock, hnid, hcfg⟩ := connect_none_spec
    { config := s.config,
      socket := (match s.socket with
        | some so => some { filters := so.filters ++ [e] }
        | none => none),
      subscriptions := updateEvent e (fun l => l ++ [{ id := s.nextId, callback := cb }])
        (s.subscriptions ++ [(e, [])]),
      nextId := s.nextId + 1 }
  refine ⟨s2, ?_, ?_, hsock, hnid, hcfg⟩
  · simp only [hc]
  · rw [hsubs]
    exact hupd

theorem internalAdd_existing_none {e : String} {s : ZmqState} {l0 : List Subscription} (cb : Nat)
    (hl : lookupEvent e s.subscriptions = some l0) :
    ∃ s2, ZmqService.internalAddEventCallback e cb none s = (.ok s.nextId, s2) ∧
      s2.subscriptions =
        updateEvent e (fun l => l ++ [{ id := s.nextId, callback := cb }]) s.subscriptions ∧
      s2.socket.isSome = true ∧ s2.nextId = s.nextId + 1 ∧ s2.config = s.config := by
  have hfresh : (lookupEvent e s.subscriptions).isNone = false := by simp [hl]
  simp only [ZmqService.internalAddEventCallback, hfresh, if_false, Bool.false_eq_true]
  obtain ⟨s2, hc, hsubs, hsock, hnid, hcfg⟩ := connect_none_spec
    { config := s.config,
      socket := s.socket,
      subscriptions := updateEvent e (fun l => l ++ [{ id := s.nextId, callback := cb }])
        s.subscriptions,
      nextId := s.nextId + 1 }
  refine ⟨s2, ?_, ?_, hsock, hnid, hcfg⟩
  · simp only [hc]
  · rw [hsubs]

/-! ### Operation sequences: the subscribe/unsubscribe state machine -/

/-- One public registry operation: a `subscribe` call or an `unsubscribe`
call. Socket opens succeed along these traces (oracle `none`). -/
inductive Op where
  | sub : String → Nat → Op
  | unsub : Nat → Op
  deriving Repr, DecidableEq

/-- Apply one operation to the service state. A thrown `unsubscribe`
`TypeError` (impossible in reachable states, as the connection invariant
shows) leaves the state as the mutations before the throw left it — for
`unsubscribe` no mutation happens before the socket access, so the state
is unchanged. -/
def step (s : ZmqState) : Op → ZmqState
  | Op.sub e cb => (ZmqService.subscribe e cb none s).2
  | Op.unsub i =>
    match ZmqService.unsubscribe i s with
    | .ok s2 => s2
    | .error _ => s

/-- A freshly constructed service: empty registry, no socket. -/
def initState (cfg : ZmqConfig) : ZmqState :=
  { config := cfg, socket := none, subscriptions := [], nextId := 0 }

/-- Run a sequence of subscribe/unsubscribe calls from the fresh service. -/
def run (cfg : ZmqConfig) (ops : List Op) : ZmqState :=
  List.foldl step (initState cfg) ops

/-- The connection invariant: the socket handle exists iff the
subscription registry is non-empty. -/
def ConnInv (s : ZmqState) : Prop :=
  s.socket.isSome = true ↔ s.subscriptions ≠ []

instance (s : ZmqState) : Decidable (ConnInv s) := by
  unfold ConnInv
  infer_instance

theorem step_preserves_ConnInv (s : ZmqState) (op : Op) (h : ConnInv s) :
    ConnInv (step s op) := by
  cases op with
  | sub e cb =>
    cases hl : lookupEvent e s.subscriptions with
    | none =>
      obtain ⟨s2, heq, hsubs, hsock, -, -⟩ := internalAdd_fresh_none cb hl
      simp only [step, ZmqService.subscribe, heq]
      refine ⟨fun _ => ?_, fun _ => hsock⟩
      rw [hsubs]
      simp
    | some l0 =>
      obtain ⟨s2, heq, hsubs, hsock, -, -⟩ := internalAdd_existing_none cb hl
      simp only [step, ZmqService.subscribe, heq]
      refine ⟨fun _ => ?_, fun _ => hsock⟩
      rw [hsubs]
      exact updateEvent_ne_nil (@lookupEvent_isSome_ne_nil e s.subscriptions (by simp [hl]))
  | unsub i =>
    cases hf : findOwner i s.subscriptions with
    | none =>
      simp only [step, ZmqService.unsubscribe, hf]
      exact h
    | some k =>
      have hne : s.subscriptions ≠ [] := findOwner_some_ne_nil hf
      obtain ⟨so, hso⟩ := Option.isSome_iff_exists.mp (h.mpr hne)
      by_cases hnl :
          (removeFirstById i ((lookupEvent k s.subscriptions).getD [])).isEmpty = true
      · by_cases hdel : (deleteEvent k s.subscriptions).isEmpty = true
        · simp only [step, ZmqService.unsubscribe, hf, hnl, if_true, hso, hdel,
            ZmqService.disconnect]
          constructor
          · intro hcon
            simp at hcon
          · intro hcon
            exact absurd (List.isEmpty_iff.mp hdel) hcon
        · simp only [step, ZmqService.unsubscribe, hf, hnl, if_true, hso, hdel,
            Bool.false_eq_true, if_false]
          refine ⟨fun _ => ?_, fun _ => rfl⟩
          intro hcon
          have hd : deleteEvent k s.subscriptions = [] := hcon
          rw [hd] at hdel
          simp [List.isEmpty] at hdel
      · simp only [step, ZmqService.unsubscribe, hf, hnl, Bool.false_eq_true, if_false]
        refine ⟨fun _ => updateEvent_ne_nil hne, fun _ => ?_⟩
        rw [hso]
        rfl

theorem foldl_step_ConnInv (ops : List Op) (s : ZmqState) (h : ConnInv s) :
    ConnInv (List.foldl step s ops) := by
  induction ops generalizing s with
  | nil => exact h
  | cons op rest ih => exact ih (step s op) (step_preserves_ConnInv s op h)

/-- C1: starting from the empty registry, along every sequence of
subscribe/unsubscribe calls in which each socket open succeeds, after each
operation the socket handle exists iff the subscription registry is
non-empty; and a connect attempt while a socket already exists changes
nothing (idempotent open, so at most one connection is ever open). -/
theorem c1_connection_iff_registry_nonempty :
    (∀ (cfg : ZmqConfig) (ops : List Op), ConnInv (run cfg ops)) ∧
    (∀ (s : ZmqState) (openErr : Option String), s.socket.isSome = true →
      ZmqService.connect openErr s = .ok s) := by
  constructor
  · intro cfg ops
    apply foldl_step_ConnInv
    simp [ConnInv, initState]
  · intro s openErr h
    exact connect_of_isSome openErr h

/-- Witness for C1 at a concrete trace and a concrete connected state. -/
theorem c1_connection_iff_registry_nonempty_witness :
    ConnInv (run { endpoint := "ep", prefixStr := "P" }
      [Op.sub "tx" 7, Op.sub "tx" 8, Op.unsub 0, Op.unsub 1]) ∧
    ZmqService.connect none
      { config := { endpoint := "ep", prefixStr := "P" },
        socket := some { filters := ["tx"] },
        subscriptions := [("tx", [{ id := 0, callback := 7 }])], nextId := 1 } =
      .ok { config := { endpoint := "ep", prefixStr := "P" },
            socket := some { filters := ["tx"] },
            subscriptions := [("tx", [{ id := 0, callback := 7 }])], nextId := 1 } :=
  ⟨c1_connection_iff_registry_nonempty.1 { endpoint := "ep", prefixStr := "P" }
      [Op.sub "tx" 7, Op.sub "tx" 8, Op.unsub 0, Op.unsub 1],
    c1_connection_iff_registry_nonempty.2
      { config := { endpoint := "ep", prefixStr := "P" },
        socket := some { filters := ["tx"] },
        subscriptions := [("tx", [{ id := 0, callback := 7 }])], nextId := 1 } none rfl⟩

/-! ### Message router lemmas -/

theorem handleMessage_dispatch
    (ext : String → Option MessageType) (gp : String → PayloadData)
    (cfg : ZmqConfig) (subs : Registry) (msg tag : String) (mt : MessageType)
    (sub : Subscription) (rest : List Subscription)
    (h0 : (splitOnSpace msg)[0]? = some "tx")
    (h12 : (splitOnSpace msg)[12]? = some tag)
    (hsub : lookupEvent "tx" subs = some (sub :: rest))
    (hmt : ext tag = some mt)
    (hpre : strStartsWith tag cfg.prefixStr = true) :
    ZmqService.handleMessage ext gp cfg subs msg =
      .ok [{ callback := sub.callback, event := "tx",
             payload := ZmqService.buildPayload
               (gp ((splitOnSpace msg)[8]?.getD "")) mt (splitOnSpace msg) }] := by
  simp [ZmqService.handleMessage, ZmqService.sendEvent, Except.map, h0, h12, hsub, hmt,
    hpre]

theorem handleMessage_ok_cases
    (ext : String → Option MessageType) (gp : String → PayloadData)
    (cfg : ZmqConfig) (subs : Registry) (msg : String) (invs : List Invocation)
    (hok : ZmqService.handleMessage ext gp cfg subs msg = .ok invs) :
    invs = [] ∨
    ∃ sub rest tag mt,
      (splitOnSpace msg)[0]? = some "tx" ∧
      lookupEvent "tx" subs = some (sub :: rest) ∧
      (splitOnSpace msg)[12]? = some tag ∧
      ext tag = some mt ∧
      strStartsWith tag cfg.prefixStr = true ∧
      invs = [{ callback := sub.callback, event := "tx",
                payload := ZmqService.buildPayload
                  (gp ((splitOnSpace msg)[8]?.getD "")) mt (splitOnSpace msg) }] := by
  simp only [ZmqService.handleMessage] at hok
  split at hok
  case isFalse =>
    left
    simpa using hok.symm
  case isTrue hcond =>
    have h0 : (splitOnSpace msg)[0]? = some "tx" := by
      cases hps : (splitOnSpace msg)[0]? with
      | none =>
        rw [hps] at hcond
        exact absurd hcond.1 (by decide)
      | some v =>
        rw [hps] at hcond
        simp at hcond
        rw [hcond.1]
    rw [h0] at hcond
    simp only [Option.getD_some] at hcond
    obtain ⟨l, hll⟩ := Option.isSome_iff_exists.mp hcond.2
    split at hok
    · exact absurd hok (by simp)
    case h_2 tag h12 =>
      split at hok
      case h_1 => left; simpa using hok.symm
      case h_2 mt hmt =>
        split at hok
        case isTrue hpre =>
          simp only [ZmqService.sendEvent, h0, Option.getD_some, hll] at hok
          cases l with
          | nil => simp [Except.map] at hok
          | cons sub rest =>
            right
            refine ⟨sub, rest, tag, mt, h0, hll, h12, hmt, hpre, ?_⟩
            injection hok with hinv
            exact hinv.symm
        case isFalse => left; simpa using hok.symm

/-- C2: a raw message of 13 space-separated fields with field 0 `"tx"`,
whose tag (field 12) classifies to a known message type and starts with
the configured prefix, delivered while at least one subscriber is
registered for `"tx"`, makes `handleMessage` invoke a subscriber callback
exactly once, with event `"tx"` and a payload carrying the base-10
integer parse of field 5 as timestamp, field 1 as hash, field 2 as
address and field 12 as tag. -/
theorem c2_matched_tx_message_invokes_subscriber_once
    (ext : String → Option MessageType) (gp : String → PayloadData)
    (cfg : ZmqConfig) (subs : Registry) (msg : String)
    (sub : Subscription) (rest : List Subscription)
    (tag hsh addr ts : String) (mt : MessageType)
    (_hlen : (splitOnSpace msg).length = 13)
    (h0 : (splitOnSpace msg)[0]? = some "tx")
    (h12 : (splitOnSpace msg)[12]? = some tag)
    (hmt : ext tag = some mt)
    (hpre : strStartsWith tag cfg.prefixStr = true)
    (hsub : lookupEvent "tx" subs = some (sub :: rest))
    (h1 : (splitOnSpace msg)[1]? = some hsh)
    (h2 : (splitOnSpace msg)[2]? = some addr)
    (h5 : (splitOnSpace msg)[5]? = some ts) :
    ∃ inv, ZmqService.handleMessage ext gp cfg subs msg = .ok [inv] ∧
      inv.event = "tx" ∧ inv.callback = sub.callback ∧
      inv.payload.timestamp = parseIntB10 ts ∧
      inv.payload.hash = hsh ∧ inv.payload.address = addr ∧
      inv.payload.tag = tag := by
  refine ⟨_, handleMessage_dispatch ext gp cfg subs msg tag mt sub rest h0 h12 hsub hmt hpre,
    rfl, rfl, ?_, ?_, ?_, ?_⟩ <;>
    simp [ZmqService.buildPayload, h1, h2, h5, h12]

/-- Witness for C2 at a fully concrete message and registry. -/
theorem c2_matched_tx_message_invokes_subscriber_once_witness :
    ∃ inv, ZmqService.handleMessage
      (fun t => if t = "PTAG" then some "callForProposal" else none)
      (fun b => "DATA" ++ b)
      { endpoint := "ep", prefixStr := "P" }
      [("tx", [{ id := 0, callback := 7 }])]
      "tx HASH ADDR f f 12345 f f BUNDLE f f f PTAG" = .ok [inv] ∧
      inv.event = "tx" ∧ inv.callback = 7 ∧
      inv.payload.timestamp = parseIntB10 "12345" ∧
      inv.payload.hash = "HASH" ∧ inv.payload.address = "ADDR" ∧
      inv.payload.tag = "PTAG" :=
  c2_matched_tx_message_invokes_subscriber_once
    (fun t => if t = "PTAG" then some "callForProposal" else none)
    (fun b => "DATA" ++ b)
    { endpoint := "ep", prefixStr := "P" }
    [("tx", [{ id := 0, callback := 7 }])]
    "tx HASH ADDR f f 12345 f f BUNDLE f f f PTAG"
    { id := 0, callback := 7 } [] "PTAG" "HASH" "ADDR" "12345" "callForProposal"
    rfl rfl rfl rfl rfl rfl rfl rfl rfl

/-- C3 (code bug witness): the concrete malformed message below has 13
fields, passes the event, subscriber, classification and prefix guards,
but its field 5 is not numeric, so `parseInt` yields NaN (`none` in the
model); `handleMessage` nevertheless invokes the subscriber callback with
that garbage timestamp instead of failing fast and reporting, contrary to
the claimed error-handling behaviour. -/
theorem c3_nan_timestamp_dispatched_code_bug :
    ZmqService.handleMessage
      (fun t => if t = "PTAG" then some "callForProposal" else none)
      (fun _ => "DATA")
      { endpoint := "ep", prefixStr := "P" }
      [("tx", [{ id := 0, callback := 7 }])]
      "tx HASH ADDR f f notanumber f f BUNDLE f f f PTAG" =
      .ok [{ callback := 7, event := "tx",
             payload := { data := "DATA", messageType := "callForProposal",
                          tag := "PTAG", hash := "HASH", address := "ADDR",
                          timestamp := none } }] := by
  rfl

/-- C6: on any raw message, `handleMessage` performs at most one callback
invocation, and when it performs one it is the callback of the head (the
first registered subscriber) of the `"tx"` subscriber list — never a
fan-out to the remaining subscribers. -/
theorem c6_dispatch_only_first_subscriber
    (ext : String → Option MessageType) (gp : String → PayloadData)
    (cfg : ZmqConfig) (subs : Registry) (msg : String) (invs : List Invocation)
    (hok : ZmqService.handleMessage ext gp cfg subs msg = .ok invs) :
    invs = [] ∨
    ∃ sub rest inv, lookupEvent "tx" subs = some (sub :: rest) ∧
      invs = [inv] ∧ inv.callback = sub.callback := by
  rcases handleMessage_ok_cases ext gp cfg subs msg invs hok with h |
    ⟨sub, rest, tag, mt, h0, hsub, h12, hmt, hpre, hinv⟩
  · exact Or.inl h
  · exact Or.inr ⟨sub, rest, _, hsub, hinv, rfl⟩

/-- Witness for C6: with two subscribers registered for `"tx"`, the single
invocation carries the first subscriber's callback (7), not the second's. -/
theorem c6_dispatch_only_first_subscriber_witness :
    [({ callback := 7, event := "tx",
        payload := { data := "DATA", messageType := "B", tag := "PTAG",
                     hash := "HASH", address := "ADDR", timestamp := some 5 } } :
        Invocation)] = [] ∨
    ∃ sub rest inv,
      lookupEvent "tx" [("tx", [{ id := 0, callback := 7 }, { id := 1, callback := 8 }])] =
        some (sub :: rest) ∧
      [({ callback := 7, event := "tx",
          payload := { data := "DATA", messageType := "B", tag := "PTAG",
                       hash := "HASH", address := "ADDR", timestamp := some 5 } } :
          Invocation)] = [inv] ∧
      inv.callback = sub.callback :=
  c6_dispatch_only_first_subscriber
    (fun t => if t = "PTAG" then some "B" else none) (fun _ => "DATA")
    { endpoint := "ep", prefixStr := "P" }
    [("tx", [{ id := 0, callback := 7 }, { id := 1, callback := 8 }])]
    "tx HASH ADDR f f 5 f f BUNDLE f f f PTAG"
    [{ callback := 7, event := "tx",
       payload := { data := "DATA", messageType := "B", tag := "PTAG",
                    hash := "HASH", address := "ADDR", timestamp := some 5 } }]
    rfl

/-- C7: `handleMessage` performs zero callback invocations unless field 0
is `"tx"`, a subscriber is registered for `"tx"`, the tag classifies, and
the tag starts with the configured prefix; in particular a message whose
tag lacks the prefix, or whose field 0 is `"block"`, is silently dropped
(`.ok []`: no invocation, no error). -/
theorem c7_all_guards_required_for_dispatch
    (ext : String → Option MessageType) (gp : String → PayloadData)
    (cfg : ZmqConfig) (subs : Registry) (msg : String) :
    (∀ invs, ZmqService.handleMessage ext gp cfg subs msg = .ok invs → invs ≠ [] →
      ((splitOnSpace msg)[0]? = some "tx" ∧ (lookupEvent "tx" subs).isSome = true ∧
        ∃ tag, (splitOnSpace msg)[12]? = some tag ∧ (ext tag).isSome = true ∧
          strStartsWith tag cfg.prefixStr = true)) ∧
    (∀ tag, (splitOnSpace msg)[12]? = some tag →
      strStartsWith tag cfg.prefixStr = false →
      ZmqService.handleMessage ext gp cfg subs msg = .ok []) ∧
    ((splitOnSpace msg)[0]? = some "block" →
      ZmqService.handleMessage ext gp cfg subs msg = .ok []) := by
  refine ⟨?_, ?_, ?_⟩
  · intro invs hok hne
    rcases handleMessage_ok_cases ext gp cfg subs msg invs hok with h |
      ⟨sub, rest, tag, mt, h0, hsub, h12, hmt, hpre, -⟩
    · exact absurd h hne
    · exact ⟨h0, by simp [hsub], tag, h12, by simp [hmt], hpre⟩
  · intro tag h12 hpre
    simp only [ZmqService.handleMessage, h12]
    split
    · cases hext : ext tag with
      | none => rfl
      | some mt => simp [hpre]
    · rfl
  · intro h0
    simp only [ZmqService.handleMessage, h0, Option.getD_some]
    have hne : ¬ (("block" : String) = "tx" ∧
        (lookupEvent "block" subs).isSome = true) :=
      fun hcon => absurd hcon.1 (by decide)
    rw [if_neg hne]

/-- Witness for C7: a prefixless tag and a `"block"` topic are both
silently dropped at concrete inputs. -/
theorem c7_all_guards_required_for_dispatch_witness :
    ZmqService.handleMessage
      (fun t => if t = "PTAG" then some "B" else none) (fun _ => "DATA")
      { endpoint := "ep", prefixStr := "P" }
      [("tx", [{ id := 0, callback := 7 }])]
      "tx HASH ADDR f f 5 f f BUNDLE f f f XTAG" = .ok [] ∧
    ZmqService.handleMessage
      (fun t => if t = "PTAG" then some "B" else none) (fun _ => "DATA")
      { endpoint := "ep", prefixStr := "P" }
      [("tx", [{ id := 0, callback := 7 }])]
      "block HASH ADDR f f 5 f f BUNDLE f f f PTAG" = .ok [] :=
  ⟨(c7_all_guards_required_for_dispatch
      (fun t => if t = "PTAG" then some "B" else none) (fun _ => "DATA")
      { endpoint := "ep", prefixStr := "P" }
      [("tx", [{ id := 0, callback := 7 }])]
      "tx HASH ADDR f f 5 f f BUNDLE f f f XTAG").2.1 "XTAG" rfl rfl,
   (c7_all_guards_required_for_dispatch
      (fun t => if t = "PTAG" then some "B" else none) (fun _ => "DATA")
      { endpoint := "ep", prefixStr := "P" }
      [("tx", [{ id := 0, callback := 7 }])]
      "block HASH ADDR f f 5 f f BUNDLE f f f PTAG").2.2 rfl⟩

/-- C10: every callback invocation `handleMessage` ever performs carries
the literal event `"tx"` and a callback registered in the `"tx"`
subscriber list; subscribers registered under any other event name are
never invoked. -/
theorem c10_router_hardcoded_to_tx
    (ext : String → Option MessageType) (gp : String → PayloadData)
    (cfg : ZmqConfig) (subs : Registry) (msg : String) (invs : List Invocation)
    (inv : Invocation)
    (hok : ZmqService.handleMessage ext gp cfg subs msg = .ok invs)
    (hmem : inv ∈ invs) :
    inv.event = "tx" ∧
    ∃ l, lookupEvent "tx" subs = some l ∧ ∃ sub ∈ l, sub.callback = inv.callback := by
  rcases handleMessage_ok_cases ext gp cfg subs msg invs hok with h |
    ⟨sub, rest, tag, mt, h0, hsub, h12, hmt, hpre, hinv⟩
  · rw [h] at hmem
    simp at hmem
  · rw [hinv] at hmem
    simp only [List.mem_singleton] at hmem
    subst hmem
    exact ⟨rfl, sub :: rest, hsub, sub, by simp, rfl⟩

/-- Witness for C10 at a concrete dispatched message: the invocation's
event is `"tx"` and its callback is registered under `"tx"`. -/
theorem c10_router_hardcoded_to_tx_witness :
    ({ callback := 7, event := "tx",
       payload := { data := "DATA", messageType := "B", tag := "PTAG",
                    hash := "HASH", address := "ADDR", timestamp := some 5 } } :
      Invocation).event = "tx" ∧
    ∃ l, lookupEvent "tx"
        [("sn", [{ id := 2, callback := 9 }]), ("tx", [{ id := 0, callback := 7 }])] =
        some l ∧
      ∃ sub ∈ l, sub.callback =
        ({ callback := 7, event := "tx",
           payload := { data := "DATA", messageType := "B", tag := "PTAG",
                        hash := "HASH", address := "ADDR", timestamp := some 5 } } :
          Invocation).callback :=
  c10_router_hardcoded_to_tx
    (fun t => if t = "PTAG" then some "B" else none) (fun _ => "DATA")
    { endpoint := "ep", prefixStr := "P" }
    [("sn", [{ id := 2, callback := 9 }]), ("tx", [{ id := 0, callback := 7 }])]
    "tx HASH ADDR f f 5 f f BUNDLE f f f PTAG"
    [{ callback := 7, event := "tx",
       payload := { data := "DATA", messageType := "B", tag := "PTAG",
                    hash := "HASH", address := "ADDR", timestamp := some 5 } }]
    { callback := 7, event := "tx",
      payload := { data := "DATA", messageType := "B", tag := "PTAG",
                   hash := "HASH", address := "ADDR", timestamp := some 5 } }
    rfl (by simp)

/-- C8: unsubscribing an id that appears in no event's subscriber list is
a silent no-op: no error is thrown and the whole service state (registry
and connection alike) is returned unchanged. -/
theorem c8_unsubscribe_unknown_id_noop
    (s : ZmqState) (subscriptionId : Nat)
    (habs : ∀ p ∈ s.subscriptions, ∀ sub ∈ p.2, sub.id ≠ subscriptionId) :
    ZmqService.unsubscribe subscriptionId s = .ok s := by
  simp only [ZmqService.unsubscribe, findOwner_none_of_absent habs]

/-- Witness for C8 at a concrete populated state and an unknown id. -/
theorem c8_unsubscribe_unknown_id_noop_witness :
    ZmqService.unsubscribe 99
      { config := { endpoint := "ep", prefixStr := "P" },
        socket := some { filters := ["tx"] },
        subscriptions := [("tx", [{ id := 0, callback := 7 }, { id := 1, callback := 8 }])],
        nextId := 2 } =
      .ok { config := { endpoint := "ep", prefixStr := "P" },
            socket := some { filters := ["tx"] },
            subscriptions := [("tx", [{ id := 0, callback := 7 }, { id := 1, callback := 8 }])],
            nextId := 2 } :=
  c8_unsubscribe_unknown_id_noop
    { config := { endpoint := "ep", prefixStr := "P" },
      socket := some { filters := ["tx"] },
      subscriptions := [("tx", [{ id := 0, callback := 7 }, { id := 1, callback := 8 }])],
      nextId := 2 } 99 (by decide)

/-- C5: when the given id is the sole subscriber of its owning event,
`unsubscribe` removes it, deletes the event key (so a duplicate-free
registry no longer resolves the key), drops the socket filter for that
event, and closes the socket exactly when that event was the last key. -/
theorem c5_unsubscribe_last_subscriber_of_event
    (s : ZmqState) (subscriptionId : Nat) (k : String) (sub : Subscription) (so : Socket)
    (hso : s.socket = some so)
    (hfind : findOwner subscriptionId s.subscriptions = some k)
    (hlook : lookupEvent k s.subscriptions = some [sub])
    (hid : sub.id = subscriptionId) :
    ∃ s2, ZmqService.unsubscribe subscriptionId s = .ok s2 ∧
      s2.subscriptions = deleteEvent k s.subscriptions ∧
      ((s.subscriptions.map Prod.fst).Nodup → lookupEvent k s2.subscriptions = none) ∧
      (deleteEvent k s.subscriptions = [] → s2.socket = none) ∧
      (deleteEvent k s.subscriptions ≠ [] →
        s2.socket = some { filters := so.filters.filter (fun f => f ≠ k) }) := by
  have hrem : removeFirstById subscriptionId ((lookupEvent k s.subscriptions).getD []) = [] := by
    rw [hlook]
    simp [removeFirstById, hid]
  simp only [ZmqService.unsubscribe, hfind, hrem, List.isEmpty_nil, if_true, hso]
  by_cases hdel : (deleteEvent k s.subscriptions).isEmpty = true
  · simp only [hdel, if_true]
    refine ⟨_, rfl, rfl, ?_, fun _ => rfl, ?_⟩
    · intro hnd
      exact lookupEvent_deleteEvent_of_nodup hnd
    · intro hne
      exact absurd (List.isEmpty_iff.mp hdel) hne
  · simp only [hdel, Bool.false_eq_true, if_false]
    refine ⟨_, rfl, rfl, ?_, ?_, fun _ => rfl⟩
    · intro hnd
      exact lookupEvent_deleteEvent_of_nodup hnd
    · intro hnil
      exact absurd (List.isEmpty_iff.mpr hnil) hdel

/-- Witness for C5: removing the sole `"tx"` subscriber while another
event remains keeps the socket but drops the `"tx"` filter and key. -/
theorem c5_unsubscribe_last_subscriber_of_event_witness :
    ∃ s2, ZmqService.unsubscribe 0
      { config := { endpoint := "ep", prefixStr := "P" },
        socket := some { filters := ["sn", "tx"] },
        subscriptions := [("sn", [{ id := 1, callback := 5 }]),
                          ("tx", [{ id := 0, callback := 7 }])],
        nextId := 2 } = .ok s2 ∧
      s2.subscriptions = deleteEvent "tx"
        [("sn", [{ id := 1, callback := 5 }]), ("tx", [{ id := 0, callback := 7 }])] ∧
      (([("sn", [{ id := 1, callback := 5 }]),
         ("tx", [{ id := 0, callback := 7 }])].map
          (Prod.fst (α := String) (β := List Subscription))).Nodup →
        lookupEvent "tx" s2.subscriptions = none) ∧
      (deleteEvent "tx" [("sn", [{ id := 1, callback := 5 }]),
          ("tx", [{ id := 0, callback := 7 }])] = [] → s2.socket = none) ∧
      (deleteEvent "tx" [("sn", [{ id := 1, callback := 5 }]),
          ("tx", [{ id := 0, callback := 7 }])] ≠ [] →
        s2.socket = some { filters := ["sn", "tx"].filter (fun f => f ≠ "tx") }) :=
  c5_unsubscribe_last_subscriber_of_event
    { config := { endpoint := "ep", prefixStr := "P" },
      socket := some { filters := ["sn", "tx"] },
      subscriptions := [("sn", [{ id := 1, callback := 5 }]),
                        ("tx", [{ id := 0, callback := 7 }])],
      nextId := 2 } 0 "tx" { id := 0, callback := 7 } { filters := ["sn", "tx"] }
    rfl (by decide) (by decide) rfl

theorem connect_ok_subscriptions {openErr : Option String} {s s2 : ZmqState}
    (h : ZmqService.connect openErr s = .ok s2) : s2.subscriptions = s.subscriptions := by
  cases hso : s.socket with
  | some so =>
    simp only [ZmqService.connect, hso] at h
    injection h with h2
    rw [← h2]
  | none =>
    cases openErr with
    | none =>
      simp only [ZmqService.connect, hso] at h
      injection h with h2
      rw [← h2]
    | some err =>
      simp only [ZmqService.connect, hso] at h
      exact Except.noConfusion h

theorem connect_some_err (err : String) (cfg : ZmqConfig) (subs : Registry) (n : Nat) :
    ZmqService.connect (some err)
      { config := cfg, socket := none, subscriptions := subs, nextId := n } =
      .error ("Unable to connect to ZMQ.\n" ++ err) := rfl

theorem internalAdd_subscriptions_after (e : String) (cb : Nat) (openErr : Option String)
    (s : ZmqState) :
    ((ZmqService.internalAddEventCallback e cb openErr s).2).subscriptions =
      updateEvent e (fun l => l ++ [{ id := s.nextId, callback := cb }])
        (if (lookupEvent e s.subscriptions).isNone = true
          then s.subscriptions ++ [(e, [])] else s.subscriptions) := by
  by_cases hf : (lookupEvent e s.subscriptions).isNone = true
  · simp only [ZmqService.internalAddEventCallback, hf, if_true]
    split
    next s2 hc => exact connect_ok_subscriptions hc
    next e2 hc => rfl
  · simp only [ZmqService.internalAddEventCallback, hf, Bool.false_eq_true, if_false]
    split
    next s2 hc => exact connect_ok_subscriptions hc
    next e2 hc => rfl

theorem lookupEvent_after_push (e : String) (cb : Nat) (openErr : Option String)
    (s : ZmqState) :
    ∃ l, lookupEvent e
      ((ZmqService.internalAddEventCallback e cb openErr s).2).subscriptions = some l ∧
      ({ id := s.nextId, callback := cb } : Subscription) ∈ l := by
  rw [internalAdd_subscriptions_after]
  by_cases hf : (lookupEvent e s.subscriptions).isNone = true
  · rw [if_pos hf]
    have hl : lookupEvent e s.subscriptions = none := Option.isNone_iff_eq_none.mp hf
    rw [updateEvent_append_of_none _ [] hl, lookupEvent_append_of_none hl,
      lookupEvent_singleton_self]
    exact ⟨_, rfl, by simp⟩
  · rw [if_neg hf, lookupEvent_updateEvent_self]
    cases hl0 : lookupEvent e s.subscriptions with
    | none => exact absurd (by simp [hl0]) hf
    | some l0 =>
      exact ⟨_, rfl, by simp⟩

theorem isPrefixList_append {ps cs : List Char} (ds : List Char)
    (h : isPrefixList ps cs = true) : isPrefixList ps (cs ++ ds) = true := by
  induction ps generalizing cs with
  | nil => rfl
  | cons p pr ih =>
    cases cs with
    | nil => simp [isPrefixList] at h
    | cons c cr =>
      simp only [isPrefixList, Bool.and_eq_true, decide_eq_true_eq] at h
      simp only [List.cons_append, isPrefixList, Bool.and_eq_true, decide_eq_true_eq]
      exact ⟨h.1, ih h.2⟩

theorem internalAdd_err_fst (e : String) (cb : Nat) (err : String) (s : ZmqState)
    (hso : s.socket = none) :
    (ZmqService.internalAddEventCallback e cb (some err) s).1 =
      .error ("Unable to connect to ZMQ.\n" ++ err) := by
  by_cases hf : (lookupEvent e s.subscriptions).isNone = true
  · simp only [ZmqService.internalAddEventCallback, hf, if_true, hso, connect_some_err]
  · simp only [ZmqService.internalAddEventCallback, hf, Bool.false_eq_true, if_false, hso,
      connect_some_err]

/-- C4: when the socket open fails during a `subscribe`, the call
propagates an error wrapped with the `Unable to connect` context, and the
registry bookkeeping performed before the connect attempt survives: the
freshly pushed `{ id, callback }` entry is present under the event key
after the failed call. -/
theorem c4_failed_connect_propagates_and_keeps_mutation
    (s : ZmqState) (event : String) (cb : Nat) (err : String)
    (hso : s.socket = none) :
    (ZmqService.internalAddEventCallback event cb (some err) s).1 =
      .error ("Unable to connect to ZMQ.\n" ++ err) ∧
    strStartsWith ("Unable to connect to ZMQ.\n" ++ err) "Unable to connect" = true ∧
    ∃ l, lookupEvent event
        ((ZmqService.internalAddEventCallback event cb (some err) s).2).subscriptions =
        some l ∧
      ({ id := s.nextId, callback := cb } : Subscription) ∈ l := by
  refine ⟨internalAdd_err_fst event cb err s hso, ?_,
    lookupEvent_after_push event cb (some err) s⟩
  have hdef : strStartsWith ("Unable to connect to ZMQ.\n" ++ err) "Unable to connect" =
      isPrefixList "Unable to connect".data
        ("Unable to connect to ZMQ.\n".data ++ err.data) := rfl
  rw [hdef]
  exact isPrefixList_append _ (by decide)

/-- Witness for C4: a failing open on a fresh service yields the wrapped
error while the new subscription entry stays registered. -/
theorem c4_failed_connect_propagates_and_keeps_mutation_witness :
    (ZmqService.internalAddEventCallback "tx" 7 (some "boom")
        (initState { endpoint := "ep", prefixStr := "P" })).1 =
      .error ("Unable to connect to ZMQ.\n" ++ "boom") ∧
    strStartsWith ("Unable to connect to ZMQ.\n" ++ "boom") "Unable to connect" = true ∧
    ∃ l, lookupEvent "tx"
        ((ZmqService.internalAddEventCallback "tx" 7 (some "boom")
            (initState { endpoint := "ep", prefixStr := "P" })).2).subscriptions =
        some l ∧
      ({ id := 0, callback := 7 } : Subscription) ∈ l :=
  c4_failed_connect_propagates_and_keeps_mutation
    (initState { endpoint := "ep", prefixStr := "P" }) "tx" 7 "boom" rfl

/-- Number of occurrences of an id across all subscriber lists of the
registry. -/
def countId (subscriptionId : Nat) (r : Registry) : Nat :=
  (r.map (fun p => (p.2.filter (fun sub => sub.id == subscriptionId)).length)).sum

/-- All ids stored in the registry lie below the fresh-id counter. -/
def IdsBelow (n : Nat) (r : Registry) : Prop :=
  ∀ p ∈ r, ∀ sub ∈ p.2, sub.id < n

/-- Matching `"tx"` traffic is delivered to the callback: every message
that passes all router guards produces exactly one invocation, carrying
this callback. -/
def TxDelivery (subs : Registry) (cb : Nat) : Prop :=
  ∀ (ext : String → Option MessageType) (gp : String → PayloadData)
    (cfg : ZmqConfig) (msg tag : String) (mt : MessageType),
    (splitOnSpace msg)[0]? = some "tx" →
    (splitOnSpace msg)[12]? = some tag →
    ext tag = some mt →
    strStartsWith tag cfg.prefixStr = true →
    ∃ inv, ZmqService.handleMessage ext gp cfg subs msg = .ok [inv] ∧
      inv.callback = cb

theorem txDelivery_of_head {subs : Registry} {sub : Subscription}
    {rest : List Subscription}
    (hsub : lookupEvent "tx" subs = some (sub :: rest)) :
    TxDelivery subs sub.callback := by
  intro ext gp cfg msg tag mt h0 h12 hmt hpre
  exact ⟨_, handleMessage_dispatch ext gp cfg subs msg tag mt sub rest h0 h12 hsub hmt hpre,
    rfl⟩

theorem countId_append (i : Nat) (a b : Registry) :
    countId i (a ++ b) = countId i a + countId i b := by
  simp [countId]

theorem countId_eq_zero_of_absent {i : Nat} {r : Registry}
    (h : ∀ p ∈ r, ∀ sub ∈ p.2, sub.id ≠ i) : countId i r = 0 := by
  induction r with
  | nil => rfl
  | cons p rest ih =>
    obtain ⟨k, v⟩ := p
    have hv : v.filter (fun sub => sub.id == i) = [] := by
      rw [List.filter_eq_nil_iff]
      intro sub hsub
      simpa using h (k, v) (by simp) sub hsub
    simp only [countId, List.map_cons, List.sum_cons, hv, List.length_nil, Nat.zero_add]
    exact ih (fun q hq => h q (by simp [hq]))


/-- C9: two subscribe calls on the same event return distinct ids, each id
ends up in exactly one subscriber-list slot of the registry, and
unsubscribing either one leaves the other's entry in place, so matching
messages are still delivered to the remaining subscriber. -/
theorem c9_two_subscriptions_independent
    (s : ZmqState) (cb1 cb2 : Nat)
    (hfresh : lookupEvent "tx" s.subscriptions = none)
    (hbound : IdsBelow s.nextId s.subscriptions)
    (i1 i2 : Nat) (s1 s2 : ZmqState)
    (hs1 : ZmqService.subscribe "tx" cb1 none s = (.ok i1, s1))
    (hs2 : ZmqService.subscribe "tx" cb2 none s1 = (.ok i2, s2)) :
    i1 ≠ i2 ∧
    countId i1 s2.subscriptions = 1 ∧
    countId i2 s2.subscriptions = 1 ∧
    (∃ s3, ZmqService.unsubscribe i1 s2 = .ok s3 ∧
      lookupEvent "tx" s3.subscriptions = some [{ id := i2, callback := cb2 }] ∧
      TxDelivery s3.subscriptions cb2) ∧
    (∃ s3, ZmqService.unsubscribe i2 s2 = .ok s3 ∧
      lookupEvent "tx" s3.subscriptions = some [{ id := i1, callback := cb1 }] ∧
      TxDelivery s3.subscriptions cb1) := by
  obtain ⟨s1', heq1, hsubs1, hsock1, hnid1, hcfg1⟩ := internalAdd_fresh_none cb1 hfresh
  simp only [ZmqService.subscribe] at hs1 hs2
  rw [heq1] at hs1
  injection hs1 with ha hb
  injection ha with hi1
  subst hb
  subst hi1
  have hl1 : lookupEvent "tx" s1'.subscriptions =
      some [{ id := s.nextId, callback := cb1 }] := by
    rw [hsubs1, lookupEvent_append_of_none hfresh, lookupEvent_singleton_self]
  obtain ⟨s2', heq2, hsubs2, hsock2, hnid2, hcfg2⟩ := internalAdd_existing_none cb2 hl1
  rw [heq2] at hs2
  injection hs2 with hc hd
  injection hc with hi2
  subst hd
  rw [hnid1] at hi2
  subst hi2
  have hreg : s2'.subscriptions =
      s.subscriptions ++
        [("tx",
          [{ id := s.nextId, callback := cb1 }, { id := s.nextId + 1, callback := cb2 }])] := by
    rw [hsubs2, hnid1, hsubs1, updateEvent_append_of_none _ _ hfresh]
    rfl
  have habs1 : ∀ p ∈ s.subscriptions, ∀ sub ∈ p.2, sub.id ≠ s.nextId :=
    fun p hp sub hsub => Nat.ne_of_lt (hbound p hp sub hsub)
  have habs2 : ∀ p ∈ s.subscriptions, ∀ sub ∈ p.2, sub.id ≠ s.nextId + 1 :=
    fun p hp sub hsub => Nat.ne_of_lt (Nat.lt_succ_of_lt (hbound p hp sub hsub))
  have hne12 : s.nextId ≠ s.nextId + 1 := Nat.ne_of_lt (Nat.lt_succ_self _)
  have hb21 : ((s.nextId + 1 : Nat) == s.nextId) = false :=
    beq_eq_false_iff_ne.mpr (Nat.succ_ne_self _)
  have hb12 : ((s.nextId : Nat) == s.nextId + 1) = false :=
    beq_eq_false_iff_ne.mpr hne12
  have hlook2 : lookupEvent "tx" s2'.subscriptions =
      some [{ id := s.nextId, callback := cb1 }, { id := s.nextId + 1, callback := cb2 }] := by
    rw [hreg, lookupEvent_append_of_none hfresh, lookupEvent_singleton_self]
  refine ⟨hne12, ?_, ?_, ?_, ?_⟩
  · rw [hreg, countId_append, countId_eq_zero_of_absent habs1]
    simp [countId, hb21]
  · rw [hreg, countId_append, countId_eq_zero_of_absent habs2]
    simp [countId, hb12]
  · have hfind1 : findOwner s.nextId s2'.subscriptions = some "tx" := by
      rw [hreg, findOwner_append_of_absent habs1]
      simp [findOwner, listHasId]
    have hrem1 : removeFirstById s.nextId
        [{ id := s.nextId, callback := cb1 }, { id := s.nextId + 1, callback := cb2 }] =
        [{ id := s.nextId + 1, callback := cb2 }] := by
      simp [removeFirstById]
    have hs3subs :
        updateEvent "tx" (fun _ => [{ id := s.nextId + 1, callback := cb2 }]) s2'.subscriptions =
          s.subscriptions ++ [("tx", [{ id := s.nextId + 1, callback := cb2 }])] := by
      rw [hreg, updateEvent_append_of_none _ _ hfresh]
    have hlook3 :
        lookupEvent "tx"
            (updateEvent "tx" (fun _ => [{ id := s.nextId + 1, callback := cb2 }]) s2'.subscriptions) =
          some [{ id := s.nextId + 1, callback := cb2 }] := by
      rw [hs3subs, lookupEvent_append_of_none hfresh, lookupEvent_singleton_self]
    have hunsub : ZmqService.unsubscribe s.nextId s2' =
        .ok { s2' with
              subscriptions :=
                updateEvent "tx" (fun _ => [{ id := s.nextId + 1, callback := cb2 }])
                  s2'.subscriptions } := by
      simp only [ZmqService.unsubscribe, hfind1, hlook2, Option.getD_some, hrem1]
      rfl
    exact ⟨_, hunsub, hlook3, txDelivery_of_head hlook3⟩
  · have hfind2 : findOwner (s.nextId + 1) s2'.subscriptions = some "tx" := by
      rw [hreg, findOwner_append_of_absent habs2]
      simp [findOwner, listHasId, hne12]
    have hrem2 : removeFirstById (s.nextId + 1)
        [{ id := s.nextId, callback := cb1 }, { id := s.nextId + 1, callback := cb2 }] =
        [{ id := s.nextId, callback := cb1 }] := by
      simp [removeFirstById, hne12]
    have hs3subs :
        updateEvent "tx" (fun _ => [{ id := s.nextId, callback := cb1 }]) s2'.subscriptions =
          s.subscriptions ++ [("tx", [{ id := s.nextId, callback := cb1 }])] := by
      rw [hreg, updateEvent_append_of_none _ _ hfresh]
    have hlook3 :
        lookupEvent "tx"
            (updateEvent "tx" (fun _ => [{ id := s.nextId, callback := cb1 }]) s2'.subscriptions) =
          some [{ id := s.nextId, callback := cb1 }] := by
      rw [hs3subs, lookupEvent_append_of_none hfresh, lookupEvent_singleton_self]
    have hunsub : ZmqService.unsubscribe (s.nextId + 1) s2' =
        .ok { s2' with
              subscriptions :=
                updateEvent "tx" (fun _ => [{ id := s.nextId, callback := cb1 }])
                  s2'.subscriptions } := by
      simp only [ZmqService.unsubscribe, hfind2, hlook2, Option.getD_some, hrem2]
      rfl
    exact ⟨_, hunsub, hlook3, txDelivery_of_head hlook3⟩

/-- Witness for C9: two concrete subscriptions to `"tx"` on a fresh
service receive ids 0 and 1; each occurs once, and removing either leaves
the other one registered and receiving matching traffic. -/
theorem c9_two_subscriptions_independent_witness :
    (0 : Nat) ≠ 1 ∧
    countId 0 [("tx", [{ id := 0, callback := 7 }, { id := 1, callback := 8 }])] = 1 ∧
    countId 1 [("tx", [{ id := 0, callback := 7 }, { id := 1, callback := 8 }])] = 1 ∧
    (∃ s3, ZmqService.unsubscribe 0
        { config := { endpoint := "ep", prefixStr := "P" },
          socket := some { filters := ["tx"] },
          subscriptions := [("tx", [{ id := 0, callback := 7 }, { id := 1, callback := 8 }])],
          nextId := 2 } = .ok s3 ∧
      lookupEvent "tx" s3.subscriptions = some [{ id := 1, callback := 8 }] ∧
      TxDelivery s3.subscriptions 8) ∧
    (∃ s3, ZmqService.unsubscribe 1
        { config := { endpoint := "ep", prefixStr := "P" },
          socket := some { filters := ["tx"] },
          subscriptions := [("tx", [{ id := 0, callback := 7 }, { id := 1, callback := 8 }])],
          nextId := 2 } = .ok s3 ∧
      lookupEvent "tx" s3.subscriptions = some [{ id := 0, callback := 7 }] ∧
      TxDelivery s3.subscriptions 7) :=
  c9_two_subscriptions_independent
    (initState { endpoint := "ep", prefixStr := "P" }) 7 8 rfl
    (fun p hp => absurd hp (List.not_mem_nil p)) 0 1
    { config := { endpoint := "ep", prefixStr := "P" },
      socket := some { filters := ["tx"] },
      subscriptions := [("tx", [{ id := 0, callback := 7 }])], nextId := 1 }
    { config := { endpoint := "ep", prefixStr := "P" },
      socket := some { filters := ["tx"] },
      subscriptions := [("tx", [{ id := 0, callback := 7 }, { id := 1, callback := 8 }])],
      nextId := 2 }
    rfl rfl
